import Mathlib

/-
  Verification of the netclaw BGP speaker core
  (src/mcp-servers/protocol-mcp/bgp/path_selection.py,
   src/mcp-servers/protocol-mcp/bgp/agent.py,
   src/mcp-servers/protocol-mcp/connectors/bgp_connector.py).

  The repository files rib.py, attributes.py, session.py, policy.py,
  messages.py and constants.py are referenced by the code above but are not
  part of the source tree given here; the data they define (route records,
  path attributes, RIB maps, session configuration) is modelled from the
  specification, as marked by doc comments starting with
  "Modelled from the spec:".
-/

/-- Three-way ascending comparison, the literal translation of the Python
pattern `if a < b: return -1; elif a > b: return 1; else: return 0`
(lower value wins). -/
def cmpAsc {α : Type} [LinearOrder α] (x y : α) : Int :=
  if x < y then -1 else if y < x then 1 else 0

/-- Three-way descending comparison, the literal translation of the Python
pattern `if a > b: return -1; elif a < b: return 1; else: return 0`
(higher value wins). -/
def cmpDesc {α : Type} [LinearOrder α] (x y : α) : Int :=
  if y < x then -1 else if x < y then 1 else 0

/-- Splits a character list on the dot character; the result always has one
group more than the number of dots. -/
def splitOnDot : List Char → List (List Char)
  | [] => [[]]
  | c :: rest =>
      let r := splitOnDot rest
      if c = '.' then [] :: r
      else
        match r with
        | [] => [[c]]
        | g :: gs => (c :: g) :: gs

/-- One dotted-quad octet as accepted by Python ipaddress: nonempty, all
digits, at most 3 digits, no leading zero unless the octet is the single
digit 0, value at most 255. -/
def parseOctet (cs : List Char) : Option Nat :=
  if cs.length = 0 ∨ 3 < cs.length then none
  else if !cs.all Char.isDigit then none
  else if cs.length ≠ 1 ∧ cs.headD '0' = '0' then none
  else
    let v := cs.foldl (fun acc c => acc * 10 + (c.toNat - 48)) 0
    if v ≤ 255 then some v else none

/-- Models `int(ipaddress.ip_address(s))` (and `struct.unpack` over
`socket.inet_aton(s)`) for dotted-quad IPv4 strings: the 32-bit numeric
value of the address, or none when the string is not a valid dotted quad.
Other textual forms Python would accept (IPv6 literals, shortened IPv4
forms for inet_aton) are modelled as parse failure; no claim settled here
depends on such inputs, and the fallback taken on failure is symmetric in
its two arguments. -/
def parseIPv4 (s : String) : Option Nat :=
  match splitOnDot s.toList with
  | [a, b, c, d] =>
      match parseOctet a, parseOctet b, parseOctet c, parseOctet d with
      | some va, some vb, some vc, some vd =>
          some (va * 16777216 + vb * 65536 + vc * 256 + vd)
      | _, _, _, _ => none
  | _ => none

/-- Modelled from the spec: the route record of rib.py.
`{prefix, path-attributes, learned-from (peer-id, peer-ip),
source in {peer, local}, timestamp}` with the five recognized path
attributes stored as optional fields (a dict keyed by type code holds at
most one attribute per code).  The field `pfx` models `prefix` (a Lean
keyword), `pfxLen` models `prefix_len`, `nextHop?` models the route
next-hop read by the selector (`route.next_hop`), and `timestamp` models
the float insertion time as a natural number (only its ordering is used). -/
structure BGPRoute where
  pfx : String
  pfxLen : Nat
  localPref? : Option Nat
  asPath? : Option (List (Nat × List Nat))
  origin? : Option Nat
  med? : Option Nat
  nextHop? : Option String
  peerId : String
  peerIp : String
  source : String
  timestamp : Nat
deriving DecidableEq

/-- Modelled from the spec: AS_PATH length for best-path purposes counts an
AS_SET (segment type 1) as 1 and each AS_SEQUENCE element individually
(`ASPathAttribute.length` of the missing attributes.py). -/
def asPathLength (segs : List (Nat × List Nat)) : Nat :=
  segs.foldl (fun acc s => acc + (if s.1 = 1 then 1 else s.2.length)) 0

/-- `BestPathSelector._get_neighbor_as` (path_selection.py:383-400): the
first AS of the first AS_PATH segment, none when the attribute is absent,
has no segments, or the first segment lists no ASes.
`BGPAgent._get_route_peer_as` (agent.py:773-794) has the identical body. -/
def getNeighborAs (r : BGPRoute) : Option Nat :=
  match r.asPath? with
  | none => none
  | some segs =>
      match segs with
      | [] => none
      | (_, asList) :: _ =>
          match asList with
          | [] => none
          | x :: _ => some x

/-- `BestPathSelector.__init__` (path_selection.py:34-48): local AS,
router id and the optional IGP cost callback. -/
structure BestPathSelector where
  localAs : Nat
  routerId : String
  igpCostLookup : Option (String → Option Nat)

/-- Step 1, `_compare_local_pref` (path_selection.py:150-173): higher
LOCAL_PREF wins, absent defaults to 100. -/
def BestPathSelector.compareLocalPref (_sel : BestPathSelector) (a b : BGPRoute) : Int :=
  cmpDesc ((a.localPref?).getD 100) ((b.localPref?).getD 100)

/-- Step 2, `_compare_as_path_length` (path_selection.py:175-197): shorter
AS_PATH wins, absent attribute counts as length 0. -/
def BestPathSelector.compareAsPathLength (_sel : BestPathSelector) (a b : BGPRoute) : Int :=
  cmpAsc ((a.asPath?).elim 0 asPathLength) ((b.asPath?).elim 0 asPathLength)

/-- Step 3, `_compare_origin` (path_selection.py:199-219): lower ORIGIN
wins, absent defaults to INCOMPLETE = 2. -/
def BestPathSelector.compareOrigin (_sel : BestPathSelector) (a b : BGPRoute) : Int :=
  cmpAsc ((a.origin?).getD 2) ((b.origin?).getD 2)

/-- Step 4, `_compare_med` (path_selection.py:221-252): skip (0) unless the
two routes have the same neighbor AS; then lower MED wins, absent MED
defaults to 0. -/
def BestPathSelector.compareMed (_sel : BestPathSelector) (a b : BGPRoute) : Int :=
  if getNeighborAs a ≠ getNeighborAs b then 0
  else cmpAsc ((a.med?).getD 0) ((b.med?).getD 0)

/-- Step 5, `_compare_ebgp_ibgp` (path_selection.py:254-271): eBGP
(neighbor AS different from the local AS; a missing neighbor AS compares
unequal to it, as Python `None != int` is true) wins over iBGP. -/
def BestPathSelector.compareEbgpIbgp (sel : BestPathSelector) (a b : BGPRoute) : Int :=
  let isEbgpA := getNeighborAs a ≠ some sel.localAs
  let isEbgpB := getNeighborAs b ≠ some sel.localAs
  if isEbgpA ∧ ¬ isEbgpB then -1
  else if ¬ isEbgpA ∧ isEbgpB then 1
  else 0

/-- Python falsiness of the optional next-hop string (`not next_hop_a`):
true for None and for the empty string. -/
def strFalsy : Option String → Bool
  | none => true
  | some s => s.isEmpty

/-- The body of `_compare_igp_metric` once a callback is configured
(path_selection.py:287-313): skip when either next-hop is falsy; a route
whose next-hop the callback cannot cost loses to a reachable one;
otherwise lower cost wins. -/
def igpCmp (lookup : String → Option Nat) (a b : BGPRoute) : Int :=
  if strFalsy a.nextHop? || strFalsy b.nextHop? then 0
  else
    match lookup ((a.nextHop?).getD ""), lookup ((b.nextHop?).getD "") with
    | none, none => 0
    | none, some _ => 1
    | some _, none => -1
    | some ca, some cb => cmpAsc ca cb

/-- Step 6, `_compare_igp_metric` (path_selection.py:273-317): 0 when no
callback is configured, otherwise the cost comparison above.  The callback
is a fixed pure function here, so the except branch of the source is
unreachable. -/
def BestPathSelector.compareIgpMetric (sel : BestPathSelector) (a b : BGPRoute) : Int :=
  match sel.igpCostLookup with
  | none => 0
  | some lookup => igpCmp lookup a b

/-- Step 7, `_compare_age` (path_selection.py:319-328): smaller timestamp
(older route) wins. -/
def BestPathSelector.compareAge (_sel : BestPathSelector) (a b : BGPRoute) : Int :=
  cmpAsc a.timestamp b.timestamp

/-- Step 8, `_compare_router_id` (path_selection.py:330-355): compare the
peer ids as 32-bit addresses when both parse, else fall back to string
comparison of the raw ids (the Python try covers both conversions). -/
def BestPathSelector.compareRouterId (_sel : BestPathSelector) (a b : BGPRoute) : Int :=
  match parseIPv4 a.peerId, parseIPv4 b.peerId with
  | some ia, some ib => cmpAsc ia ib
  | _, _ => cmpAsc a.peerId b.peerId

/-- Step 9, `_compare_peer_ip` (path_selection.py:357-381): same scheme on
the peer IP addresses. -/
def BestPathSelector.comparePeerIp (_sel : BestPathSelector) (a b : BGPRoute) : Int :=
  match parseIPv4 a.peerIp, parseIPv4 b.peerIp with
  | some ia, some ib => cmpAsc ia ib
  | _, _ => cmpAsc a.peerIp b.peerIp

/-- `BestPathSelector.compare` (path_selection.py:88-148): the nine steps
consulted in order, each later step only when all earlier steps returned
0; -1 means route a is better, 1 means route b is better. -/
def BestPathSelector.compare (sel : BestPathSelector) (a b : BGPRoute) : Int :=
  let r1 := sel.compareLocalPref a b
  if r1 ≠ 0 then r1 else
  let r2 := sel.compareAsPathLength a b
  if r2 ≠ 0 then r2 else
  let r3 := sel.compareOrigin a b
  if r3 ≠ 0 then r3 else
  let r4 := sel.compareMed a b
  if r4 ≠ 0 then r4 else
  let r5 := sel.compareEbgpIbgp a b
  if r5 ≠ 0 then r5 else
  let r6 := sel.compareIgpMetric a b
  if r6 ≠ 0 then r6 else
  let r7 := sel.compareAge a b
  if r7 ≠ 0 then r7 else
  let r8 := sel.compareRouterId a b
  if r8 ≠ 0 then r8 else
  let r9 := sel.comparePeerIp a b
  if r9 ≠ 0 then r9 else
  0

/-- `BestPathSelector.select_best` (path_selection.py:60-86): none for the
empty list, the single route for a singleton, otherwise a left-to-right
scan that replaces the incumbent whenever `compare` returns a positive
value (candidate better). -/
def BestPathSelector.selectBest (sel : BestPathSelector) : List BGPRoute → Option BGPRoute
  | [] => none
  | [r] => some r
  | r :: rest =>
      some (rest.foldl (fun best c => if 0 < sel.compare best c then c else best) r)


lemma cmpAsc_antisymm {α : Type} [LinearOrder α] (x y : α) : cmpAsc y x = -cmpAsc x y := by
  unfold cmpAsc
  rcases lt_trichotomy x y with h | h | h
  · simp [h, asymm h]
  · simp [h]
  · simp [h, asymm h]

lemma cmpDesc_antisymm {α : Type} [LinearOrder α] (x y : α) : cmpDesc y x = -cmpDesc x y := by
  unfold cmpDesc
  rcases lt_trichotomy x y with h | h | h
  · simp [h, asymm h]
  · simp [h]
  · simp [h, asymm h]

lemma compareLocalPref_antisymm (sel : BestPathSelector) (a b : BGPRoute) :
    sel.compareLocalPref b a = -sel.compareLocalPref a b := by
  unfold BestPathSelector.compareLocalPref
  exact cmpDesc_antisymm _ _

lemma compareAsPathLength_antisymm (sel : BestPathSelector) (a b : BGPRoute) :
    sel.compareAsPathLength b a = -sel.compareAsPathLength a b := by
  unfold BestPathSelector.compareAsPathLength
  exact cmpAsc_antisymm _ _

lemma compareOrigin_antisymm (sel : BestPathSelector) (a b : BGPRoute) :
    sel.compareOrigin b a = -sel.compareOrigin a b := by
  unfold BestPathSelector.compareOrigin
  exact cmpAsc_antisymm _ _

lemma compareMed_antisymm (sel : BestPathSelector) (a b : BGPRoute) :
    sel.compareMed b a = -sel.compareMed a b := by
  unfold BestPathSelector.compareMed
  by_cases h : getNeighborAs a = getNeighborAs b
  · rw [if_neg (by simp [h]), if_neg (by simp [h])]
    exact cmpAsc_antisymm _ _
  · rw [if_pos (Ne.symm h), if_pos h]
    rfl

lemma compareEbgpIbgp_antisymm (sel : BestPathSelector) (a b : BGPRoute) :
    sel.compareEbgpIbgp b a = -sel.compareEbgpIbgp a b := by
  unfold BestPathSelector.compareEbgpIbgp
  by_cases ha : getNeighborAs a = some sel.localAs <;>
    by_cases hb : getNeighborAs b = some sel.localAs <;>
    simp only [ha, hb, ne_eq, not_true_eq_false, not_false_eq_true, false_and, and_false,
      true_and, and_true, if_true, if_false, ite_false, ite_true, not_not, neg_neg, neg_zero]

lemma igpCmp_antisymm (lookup : String → Option Nat) (a b : BGPRoute) :
    igpCmp lookup b a = -igpCmp lookup a b := by
  unfold igpCmp
  cases ha : strFalsy a.nextHop? <;> cases hb : strFalsy b.nextHop?
  case false.false =>
    cases hfa : lookup ((a.nextHop?).getD "") with
    | none =>
        cases hfb : lookup ((b.nextHop?).getD "") with
        | none => rfl
        | some cb => rfl
    | some ca =>
        cases hfb : lookup ((b.nextHop?).getD "") with
        | none => rfl
        | some cb => exact cmpAsc_antisymm ca cb
  all_goals rfl

lemma compareIgpMetric_antisymm (sel : BestPathSelector) (a b : BGPRoute) :
    sel.compareIgpMetric b a = -sel.compareIgpMetric a b := by
  unfold BestPathSelector.compareIgpMetric
  cases sel.igpCostLookup with
  | none => rfl
  | some lookup => exact igpCmp_antisymm lookup a b

lemma compareAge_antisymm (sel : BestPathSelector) (a b : BGPRoute) :
    sel.compareAge b a = -sel.compareAge a b := by
  unfold BestPathSelector.compareAge
  exact cmpAsc_antisymm _ _

lemma compareRouterId_antisymm (sel : BestPathSelector) (a b : BGPRoute) :
    sel.compareRouterId b a = -sel.compareRouterId a b := by
  unfold BestPathSelector.compareRouterId
  cases hpa : parseIPv4 a.peerId with
  | none =>
      cases hpb : parseIPv4 b.peerId with
      | none => exact cmpAsc_antisymm a.peerId b.peerId
      | some ib => exact cmpAsc_antisymm a.peerId b.peerId
  | some ia =>
      cases hpb : parseIPv4 b.peerId with
      | none => exact cmpAsc_antisymm a.peerId b.peerId
      | some ib => exact cmpAsc_antisymm ia ib

lemma comparePeerIp_antisymm (sel : BestPathSelector) (a b : BGPRoute) :
    sel.comparePeerIp b a = -sel.comparePeerIp a b := by
  unfold BestPathSelector.comparePeerIp
  cases hpa : parseIPv4 a.peerIp with
  | none =>
      cases hpb : parseIPv4 b.peerIp with
      | none => exact cmpAsc_antisymm a.peerIp b.peerIp
      | some ib => exact cmpAsc_antisymm a.peerIp b.peerIp
  | some ia =>
      cases hpb : parseIPv4 b.peerIp with
      | none => exact cmpAsc_antisymm a.peerIp b.peerIp
      | some ib => exact cmpAsc_antisymm ia ib

lemma ifStep_neg (x y x2 y2 : Int) (hx : x2 = -x) (hy : y2 = -y) :
    (if x2 ≠ 0 then x2 else y2) = -(if x ≠ 0 then x else y) := by
  subst hx; subst hy
  by_cases h : x = 0 <;> simp [h]

/-- C10: the route comparator is antisymmetric: swapping the two routes
negates the result, for every selector (so for every local AS and every
fixed deterministic IGP cost callback, including an absent one) and every
pair of routes, covering the MED neighbor-AS guard, the
unreachable-next-hop handling of the IGP step and the string fallbacks of
the router-id and peer-IP tiebreakers. -/
theorem compare_antisymm (sel : BestPathSelector) (a b : BGPRoute) :
    sel.compare b a = -sel.compare a b := by
  simp only [BestPathSelector.compare]
  refine ifStep_neg _ _ _ _ (compareLocalPref_antisymm sel a b) ?_
  refine ifStep_neg _ _ _ _ (compareAsPathLength_antisymm sel a b) ?_
  refine ifStep_neg _ _ _ _ (compareOrigin_antisymm sel a b) ?_
  refine ifStep_neg _ _ _ _ (compareMed_antisymm sel a b) ?_
  refine ifStep_neg _ _ _ _ (compareEbgpIbgp_antisymm sel a b) ?_
  refine ifStep_neg _ _ _ _ (compareIgpMetric_antisymm sel a b) ?_
  refine ifStep_neg _ _ _ _ (compareAge_antisymm sel a b) ?_
  refine ifStep_neg _ _ _ _ (compareRouterId_antisymm sel a b) ?_
  refine ifStep_neg _ _ _ _ (comparePeerIp_antisymm sel a b) ?_
  rfl

/-- A selector with no IGP callback, as built by the agent
(`BestPathSelector(local_as, router_id)`, agent.py:71). -/
def cexSel : BestPathSelector :=
  { localAs := 65001, routerId := "4.4.4.4", igpCostLookup := none }

/-- Route for 10.0.0.0/8 learned from AS 1, no MED, youngest. -/
def cexR1 : BGPRoute :=
  { pfx := "10.0.0.0/8", pfxLen := 8, localPref? := none,
    asPath? := some [(2, [1])], origin? := none, med? := none,
    nextHop? := some "192.0.2.1", peerId := "1.1.1.1", peerIp := "172.16.0.1",
    source := "peer", timestamp := 30 }

/-- Route from AS 1 with MED 10, oldest. -/
def cexR2 : BGPRoute :=
  { cexR1 with
    med? := some 10, peerId := "2.2.2.2", peerIp := "172.16.0.2",
    timestamp := 10 }

/-- Route from AS 2 (different neighbor AS, so MED is skipped against it),
middle age. -/
def cexR3 : BGPRoute :=
  { cexR1 with
    asPath? := some [(2, [2])], peerId := "3.3.3.3",
    peerIp := "172.16.0.3", timestamp := 20 }

/-- C2 counterexample: the MED neighbor-AS guard makes `compare`
non-transitive (cexR1 beats cexR2 on MED, cexR2 beats cexR3 on age, cexR3
beats cexR1 on age), so on the list [cexR2, cexR1, cexR3] the scan of
`select_best` returns cexR3 even though the candidate cexR2 still beats it
(`compare cexR3 cexR2 = 1 > 0`); the returned route is therefore not best
under the 9-rule ordering against every other candidate. -/
theorem selectBest_not_pairwise_best :
    cexSel.selectBest [cexR2, cexR1, cexR3] = some cexR3 ∧
    cexR2 ∈ [cexR2, cexR1, cexR3] ∧
    0 < cexSel.compare cexR3 cexR2 := by
  refine ⟨by decide, by decide, by decide⟩

lemma scanFoldl_mem (sel : BestPathSelector) :
    ∀ (l : List BGPRoute) (a : BGPRoute),
      l.foldl (fun best c => if 0 < sel.compare best c then c else best) a ∈ a :: l := by
  intro l
  induction l with
  | nil => intro a; simp
  | cons c t ih =>
      intro a
      simp only [List.foldl_cons]
      by_cases h : 0 < sel.compare a c
      · simp only [if_pos h]
        exact List.mem_cons_of_mem a (ih c)
      · simp only [if_neg h]
        rcases List.mem_cons.mp (ih a) with h1 | h1
        · rw [h1]; exact List.mem_cons_self a (c :: t)
        · exact List.mem_cons_of_mem a (List.mem_cons_of_mem c h1)

/-- C2 (amended): `select_best` returns none for the empty list; for a
non-empty list it returns the left-to-right scan that replaces the
incumbent exactly when `compare incumbent candidate` is positive, and that
scan result is always a member of the input list.  (The stronger pairwise
statement of the claim fails: see the counterexample.) -/
theorem selectBest_scan_spec (sel : BestPathSelector) (r : BGPRoute) (rest : List BGPRoute) :
    sel.selectBest [] = none ∧
    sel.selectBest (r :: rest) =
      some (rest.foldl (fun best c => if 0 < sel.compare best c then c else best) r) ∧
    rest.foldl (fun best c => if 0 < sel.compare best c then c else best) r ∈ r :: rest := by
  refine ⟨rfl, ?_, scanFoldl_mem sel rest r⟩
  cases rest with
  | nil => rfl
  | cons c t => rfl

/-- C3: the MED step returns a tie whenever the two routes disagree on
their neighbor AS (the first AS of AS_PATH, none when the attribute is
missing, empty, or starts with an AS-less segment); when the neighbor
ASes agree, the route with the lower MED wins with absent
MULTI_EXIT_DISC treated as 0. -/
theorem compareMed_neighbor_guard (sel : BestPathSelector) (a b : BGPRoute) :
    (getNeighborAs a ≠ getNeighborAs b → sel.compareMed a b = 0) ∧
    (getNeighborAs a = getNeighborAs b →
       ((a.med?).getD 0 < (b.med?).getD 0 → sel.compareMed a b = -1) ∧
       ((b.med?).getD 0 < (a.med?).getD 0 → sel.compareMed a b = 1) ∧
       ((a.med?).getD 0 = (b.med?).getD 0 → sel.compareMed a b = 0)) ∧
    (a.asPath? = none → getNeighborAs a = none) ∧
    (a.asPath? = some [] → getNeighborAs a = none) ∧
    (∀ t rest, a.asPath? = some ((t, []) :: rest) → getNeighborAs a = none) := by
  refine ⟨?_, ?_, ?_, ?_, ?_⟩
  · intro h
    unfold BestPathSelector.compareMed
    rw [if_pos h]
  · intro h
    unfold BestPathSelector.compareMed
    rw [if_neg (by simp [h])]
    refine ⟨?_, ?_, ?_⟩
    · intro hlt; unfold cmpAsc; rw [if_pos hlt]
    · intro hgt; unfold cmpAsc; rw [if_neg (asymm hgt), if_pos hgt]
    · intro heq; unfold cmpAsc; rw [heq, if_neg (lt_irrefl _), if_neg (lt_irrefl _)]
  · intro h; unfold getNeighborAs; rw [h]
  · intro h; unfold getNeighborAs; rw [h]
  · intro t rest h; unfold getNeighborAs; rw [h]

/-- Selector instance for the C3 witness. -/
def c3Sel : BestPathSelector :=
  { localAs := 65001, routerId := "4.4.4.4", igpCostLookup := none }

/-- Route from neighbor AS 65000 with MED 5. -/
def c3RouteA : BGPRoute :=
  { pfx := "10.0.0.0/8", pfxLen := 8, localPref? := none,
    asPath? := some [(2, [65000])], origin? := none, med? := some 5,
    nextHop? := some "192.0.2.9", peerId := "8.8.8.8", peerIp := "172.16.9.1",
    source := "peer", timestamp := 7 }

/-- Route from neighbor AS 65002 with MED 50. -/
def c3RouteB : BGPRoute :=
  { c3RouteA with
    asPath? := some [(2, [65002])], med? := some 50,
    peerId := "9.9.9.9", peerIp := "172.16.9.2" }

/-- C3 witness: the two routes come from different neighbor ASes, so the
MED step is skipped even though their MEDs differ. -/
theorem compareMed_neighbor_guard_witness :
    getNeighborAs c3RouteA ≠ getNeighborAs c3RouteB ∧
    c3Sel.compareMed c3RouteA c3RouteB = 0 :=
  ⟨by decide, (compareMed_neighbor_guard c3Sel c3RouteA c3RouteB).1 (by decide)⟩

/-- Modelled from the spec: the six FSM states of the per-peer session
(`session.fsm.state`, constants STATE_IDLE .. STATE_ESTABLISHED). -/
inductive FSMState where
  | idle
  | connect
  | active
  | openSent
  | openConfirm
  | established
deriving DecidableEq

/-- Modelled from the spec: the parts of the peer configuration record read
by the agent (`session.config`): peer IP, peer AS, local interface IP, the
passive flag, the accept-any-source (mesh) flag and the optionally
configured peer router id. -/
structure SessionConfig where
  peerIp : String
  peerAs : Nat
  localIp : String
  passive : Bool
  acceptAnySource : Bool
  peerRouterId : Option String
deriving DecidableEq

/-- Modelled from the spec: the parts of a peer session read by the agent:
its configuration, its FSM state, its peer id (the key used by policy and
split-horizon checks) and its Adj-RIB-In as a mapping prefix to route. -/
structure Session where
  config : SessionConfig
  fsmState : FSMState
  peerId : String
  adjRibIn : List (String × BGPRoute)
deriving DecidableEq

/-- Modelled from the spec: the fields of a decoded OPEN message used for
mesh identification (`open_msg.my_as`, `open_msg.bgp_identifier`). -/
structure BGPOpen where
  myAs : Nat
  bgpIdentifier : String
  holdTime : Nat
deriving DecidableEq

/-- The result of dispatching one incoming TCP connection
(`BGPAgent._handle_incoming_connection`): either the socket is closed
(reject), or `session.accept_connection(reader, writer, is_collision)` is
reached for the given session, with the mesh flag, the pre-read OPEN
stored in `session._pending_open`, and whether the existing outgoing
connection and its reader task were torn down first. -/
inductive ConnOutcome where
  | reject : ConnOutcome
  | accept (s : Session) (isCollision : Bool) (mesh : Bool)
      (pendingOpen : Option BGPOpen) (dropOutgoing : Bool) : ConnOutcome
deriving DecidableEq

/-- The collision peer id string `session.config.peer_router_id or peer_ip`
(agent.py:288): the configured peer router id unless it is Python-falsy
(absent or empty), else the source IP. -/
def effPeerRouterId (s : Session) (peerIp : String) : String :=
  match s.config.peerRouterId with
  | some r => if r.isEmpty then peerIp else r
  | none => peerIp

/-- The default timeout, in seconds, of `BGPAgent._read_open_message`
(agent.py:149, `timeout: float = 30.0`), used for the mesh OPEN pre-read. -/
def meshOpenReadTimeoutSecs : Nat := 30

/-- `BGPAgent._handle_incoming_connection` (agent.py:203-335) as a function
of the dispatch state: the configured sessions keyed by peer IP, the mesh
sessions keyed by peer AS, the source IP of the connection, and the OPEN
message the mesh pre-read would yield (none models timeout, invalid
marker or type, or decode failure).  Stream and socket effects are
abstracted into the returned `ConnOutcome`. -/
def handleIncoming (routerId : String) (sessions : List (String × Session))
    (meshSessions : List (Nat × Session)) (peerIp : String)
    (openMsg? : Option BGPOpen) : ConnOutcome :=
  match sessions.lookup peerIp with
  | some s =>
      if !s.config.passive then
        match s.fsmState with
        | .established => .reject
        | .openSent | .openConfirm =>
            match parseIPv4 routerId, parseIPv4 (effPeerRouterId s peerIp) with
            | some ourId, some peerRId =>
                if peerRId < ourId then .reject
                else .accept s true false none true
            | _, _ => .reject
        | _ => .accept s true false none false
      else .accept s false false none false
  | none =>
      if meshSessions.isEmpty then .reject
      else
        match openMsg? with
        | none => .reject
        | some o =>
            match meshSessions.lookup o.myAs with
            | none => .reject
            | some s =>
                if s.fsmState = .established then .reject
                else .accept s false true (some o) false

/-- Passive peer configuration used in the C4 counterexample. -/
def c4Cfg : SessionConfig :=
  { peerIp := "10.0.0.9", peerAs := 65000, localIp := "10.0.0.2",
    passive := true, acceptAnySource := false, peerRouterId := none }

/-- A passive session that is already Established. -/
def c4Session : Session :=
  { config := c4Cfg, fsmState := .established, peerId := "10.0.0.9", adjRibIn := [] }

/-- C4 counterexample: a passive session matched by source IP is already
Established, yet the incoming connection is not rejected: the dispatcher
skips collision handling for passive non-mesh sessions and reaches
`session.accept_connection`, attaching the new connection. -/
theorem handleIncoming_passive_established_accepts :
    handleIncoming "4.4.4.4" [("10.0.0.9", c4Session)] [] "10.0.0.9" none =
      ConnOutcome.accept c4Session false false none false ∧
    handleIncoming "4.4.4.4" [("10.0.0.9", c4Session)] [] "10.0.0.9" none ≠
      ConnOutcome.reject :=
  ⟨by decide, by decide⟩

/-- C4 (amended): an incoming connection dispatched to an Established
session is rejected when the session is non-passive (active mode), and a
mesh-identified connection whose matched session is Established is also
rejected; but a passive session matched by source IP accepts the incoming
connection (with is_collision = false) even when Established. -/
theorem handleIncoming_established_reject_spec (routerId : String)
    (sessions : List (String × Session)) (meshSessions : List (Nat × Session))
    (peerIp : String) (openMsg? : Option BGPOpen) (s : Session) :
    (sessions.lookup peerIp = some s → s.fsmState = .established →
       s.config.passive = false →
       handleIncoming routerId sessions meshSessions peerIp openMsg? = .reject) ∧
    (sessions.lookup peerIp = some s → s.fsmState = .established →
       s.config.passive = true →
       handleIncoming routerId sessions meshSessions peerIp openMsg? =
         ConnOutcome.accept s false false none false) ∧
    (∀ o s2, sessions.lookup peerIp = none → openMsg? = some o →
       meshSessions.lookup o.myAs = some s2 → s2.fsmState = .established →
       handleIncoming routerId sessions meshSessions peerIp openMsg? = .reject) := by
  refine ⟨?_, ?_, ?_⟩
  · intro hl hst hp
    simp [handleIncoming, hl, hst, hp]
  · intro hl hst hp
    simp [handleIncoming, hl, hst, hp]
  · intro o s2 hl ho hm hst
    cases meshSessions with
    | nil => simp at hm
    | cons m rest => simp [handleIncoming, hl, ho, hm, hst]

/-- Non-passive Established session used in the C4 witness. -/
def c4wSession : Session :=
  { config := { peerIp := "10.0.0.7", peerAs := 65000, localIp := "10.0.0.2",
                passive := false, acceptAnySource := false, peerRouterId := none },
    fsmState := .established, peerId := "10.0.0.7", adjRibIn := [] }

/-- C4 witness: in active mode an Established session rejects the new
connection. -/
theorem handleIncoming_established_reject_spec_witness :
    [("10.0.0.7", c4wSession)].lookup "10.0.0.7" = some c4wSession ∧
    c4wSession.fsmState = FSMState.established ∧
    c4wSession.config.passive = false ∧
    handleIncoming "4.4.4.4" [("10.0.0.7", c4wSession)] [] "10.0.0.7" none =
      ConnOutcome.reject :=
  ⟨by decide, by decide, by decide,
   (handleIncoming_established_reject_spec "4.4.4.4" [("10.0.0.7", c4wSession)] []
      "10.0.0.7" none c4wSession).1 (by decide) (by decide) (by decide)⟩

/-- C5: for a non-passive session found by source IP that is in OpenSent or
OpenConfirm, with both BGP identifiers parsing as 32-bit addresses and
distinct, exactly one connection survives and it is the one initiated by
the higher identifier: a numerically greater local router id closes the
incoming socket and keeps the outgoing connection, a smaller one tears
down the outgoing connection and its reader task and accepts the incoming
connection.  The dispatcher is a pure function of its inputs, so the same
pair of identifiers always produces the same outcome. -/
theorem handleIncoming_collision_resolution (routerId : String)
    (sessions : List (String × Session)) (meshSessions : List (Nat × Session))
    (peerIp : String) (openMsg? : Option BGPOpen) (s : Session) (ourId peerRId : Nat) :
    sessions.lookup peerIp = some s →
    s.config.passive = false →
    (s.fsmState = .openSent ∨ s.fsmState = .openConfirm) →
    parseIPv4 routerId = some ourId →
    parseIPv4 (effPeerRouterId s peerIp) = some peerRId →
    ourId ≠ peerRId →
    ((peerRId < ourId →
        handleIncoming routerId sessions meshSessions peerIp openMsg? = .reject) ∧
     (ourId < peerRId →
        handleIncoming routerId sessions meshSessions peerIp openMsg? =
          ConnOutcome.accept s true false none true)) := by
  intro hl hp hst hra hrb hne
  have hbranch :
      handleIncoming routerId sessions meshSessions peerIp openMsg? =
        if peerRId < ourId then ConnOutcome.reject
        else ConnOutcome.accept s true false none true := by
    rcases hst with h | h <;> simp [handleIncoming, hl, hp, h, hra, hrb]
  constructor
  · intro hlt
    rw [hbranch, if_pos hlt]
  · intro hlt
    rw [hbranch, if_neg (asymm hlt)]

/-- OpenSent session with configured peer router id 9.9.9.9, for the C5
witness (the collision scenario of the spec: local 4.4.4.4 against peer
9.9.9.9). -/
def c5Session : Session :=
  { config := { peerIp := "172.16.0.1", peerAs := 65000, localIp := "172.16.0.2",
                passive := false, acceptAnySource := false,
                peerRouterId := some "9.9.9.9" },
    fsmState := .openSent, peerId := "172.16.0.1", adjRibIn := [] }

/-- C5 witness: local id 4.4.4.4 (67372036) is below peer id 9.9.9.9
(151587081), so the incoming connection wins and the outgoing one is torn
down. -/
theorem handleIncoming_collision_resolution_witness :
    parseIPv4 "4.4.4.4" = some 67372036 ∧
    parseIPv4 (effPeerRouterId c5Session "172.16.0.1") = some 151587081 ∧
    handleIncoming "4.4.4.4" [("172.16.0.1", c5Session)] [] "172.16.0.1" none =
      ConnOutcome.accept c5Session true false none true :=
  ⟨by decide, by decide,
   (handleIncoming_collision_resolution "4.4.4.4" [("172.16.0.1", c5Session)] []
      "172.16.0.1" none c5Session 67372036 151587081 (by decide) (by decide)
      (Or.inl (by decide)) (by decide) (by decide) (by decide)).2 (by decide)⟩

/-- C6: when the source IP matches no configured session and at least one
mesh peer is configured, the pre-read OPEN decides: no valid OPEN (the
read uses the 30-second default timeout) closes the socket; an OPEN whose
my-as matches no mesh peer closes the socket; a match whose session is
already Established closes the socket; otherwise the connection is
attached to the matched session with the pre-read OPEN stored for the FSM
to consume. -/
theorem handleIncoming_mesh_identification (routerId : String)
    (sessions : List (String × Session)) (m0 : Nat × Session)
    (rest : List (Nat × Session)) (peerIp : String) (openMsg? : Option BGPOpen) :
    sessions.lookup peerIp = none →
    ((openMsg? = none →
        handleIncoming routerId sessions (m0 :: rest) peerIp openMsg? = .reject) ∧
     (∀ o, openMsg? = some o → (m0 :: rest).lookup o.myAs = none →
        handleIncoming routerId sessions (m0 :: rest) peerIp openMsg? = .reject) ∧
     (∀ o s, openMsg? = some o → (m0 :: rest).lookup o.myAs = some s →
        s.fsmState ≠ .established →
        handleIncoming routerId sessions (m0 :: rest) peerIp openMsg? =
          ConnOutcome.accept s false true (some o) false) ∧
     meshOpenReadTimeoutSecs = 30) := by
  intro hl
  refine ⟨?_, ?_, ?_, rfl⟩
  · intro ho
    simp [handleIncoming, hl, ho]
  · intro o ho hm
    simp [handleIncoming, hl, ho, hm]
  · intro o s ho hm hst
    simp [handleIncoming, hl, ho, hm, hst]

/-- Mesh peer session for AS 65002, not yet Established (spec scenario e). -/
def c6Session : Session :=
  { config := { peerIp := "mesh-as65002", peerAs := 65002, localIp := "10.0.0.2",
                passive := true, acceptAnySource := true, peerRouterId := none },
    fsmState := .idle, peerId := "mesh-as65002", adjRibIn := [] }

/-- OPEN message carrying my-as 65002. -/
def c6Open : BGPOpen := { myAs := 65002, bgpIdentifier := "7.7.7.7", holdTime := 90 }

/-- C6 witness: an inbound connection from an unknown IP whose OPEN says
AS 65002 attaches to the configured mesh session with the pre-read OPEN
stored. -/
theorem handleIncoming_mesh_identification_witness :
    ([] : List (String × Session)).lookup "198.51.100.5" = none ∧
    handleIncoming "4.4.4.4" [] [(65002, c6Session)] "198.51.100.5" (some c6Open) =
      ConnOutcome.accept c6Session false true (some c6Open) false :=
  ⟨by decide,
   ((handleIncoming_mesh_identification "4.4.4.4" [] (65002, c6Session) []
      "198.51.100.5" (some c6Open) (by decide)).2.2.1 c6Open c6Session
      (by decide) (by decide) (by decide))⟩

/-- Modelled from the spec: the recognized path attributes of attributes.py
as a sum: ORIGIN (type 1), AS_PATH (type 2, a list of
(segment-type, AS list) segments), NEXT_HOP (type 3), MULTI_EXIT_DISC
(type 4), LOCAL_PREF (type 5); unrecognized attributes are kept opaque
(their type codes lie outside 1-5, so the type-code dispatch of the agent
is the structural match on this sum). -/
inductive PathAttribute where
  | originA (v : Nat)
  | asPathA (segs : List (Nat × List Nat))
  | nextHopA (ip : String)
  | medA (v : Nat)
  | localPrefA (v : Nat)
  | otherA (typeCode : Nat)
deriving DecidableEq

/-- Modelled from the spec: `ASPathAttribute.prepend(asn)` puts the AS as
the new leftmost element of AS_PATH: merged into a leading AS_SEQUENCE
segment, or as a fresh AS_SEQUENCE segment otherwise. -/
def prependAS (asn : Nat) : List (Nat × List Nat) → List (Nat × List Nat)
  | [] => [(2, [asn])]
  | (t, l) :: rest =>
      if t = 2 then (2, asn :: l) :: rest else (2, [asn]) :: (t, l) :: rest

/-- Python `list.insert(n, a)`: insert before position n, appending when n
is past the end. -/
def pyInsert {α : Type} (n : Nat) (a : α) (l : List α) : List α :=
  l.take n ++ a :: l.drop n

/-- The AS_PATH segments of an attribute, none for other attributes. -/
def asPathSeg? : PathAttribute → Option (List (Nat × List Nat))
  | .asPathA segs => some segs
  | _ => none

/-- The LOCAL_PREF value of an attribute, none for other attributes. -/
def localPrefVal? : PathAttribute → Option Nat
  | .localPrefA v => some v
  | _ => none

/-- All AS_PATH segment lists occurring in an attribute list, in order. -/
def asPathSegsOf (l : List PathAttribute) : List (List (Nat × List Nat)) :=
  l.filterMap asPathSeg?

/-- All LOCAL_PREF values occurring in an attribute list, in order. -/
def localPrefsOf (l : List PathAttribute) : List Nat :=
  l.filterMap localPrefVal?

/-- Whether the attribute is an AS_PATH (`attr.type_code == ATTR_AS_PATH`). -/
def isAsPathAttr : PathAttribute → Bool
  | .asPathA _ => true
  | _ => false

/-- Whether the attribute is a LOCAL_PREF
(`attr.type_code == ATTR_LOCAL_PREF`). -/
def isLocalPrefAttr : PathAttribute → Bool
  | .localPrefA _ => true
  | _ => false

/-- The first AS of an AS_PATH segment list, as `_get_neighbor_as` reads
it: the head of the first segment. -/
def firstASOf : List (Nat × List Nat) → Option Nat
  | [] => none
  | (_, []) :: _ => none
  | (_, x :: _) :: _ => some x

/-- One iteration of the attribute loop of
`BGPAgent._prepare_attributes_for_advertisement` (agent.py:822-854): the
state is (modified list, has_origin, has_as_path, has_next_hop); ORIGIN is
kept, NEXT_HOP is rewritten to the local interface IP, AS_PATH is copied
and prepended with the local AS for an eBGP session, LOCAL_PREF is kept
for iBGP and stripped for eBGP, everything else is kept as is. -/
def prepStep (localAs sessPeerAs : Nat) (localIp : String)
    (st : List PathAttribute × Bool × Bool × Bool) (attr : PathAttribute) :
    List PathAttribute × Bool × Bool × Bool :=
  match attr with
  | .originA v => (st.1 ++ [.originA v], true, st.2.2.1, st.2.2.2)
  | .nextHopA _ => (st.1 ++ [.nextHopA localIp], st.2.1, st.2.2.1, true)
  | .asPathA segs =>
      (st.1 ++ [.asPathA (if sessPeerAs ≠ localAs then prependAS localAs segs else segs)],
        st.2.1, true, st.2.2.2)
  | .localPrefA v =>
      if sessPeerAs = localAs then (st.1 ++ [.localPrefA v], st.2.1, st.2.2.1, st.2.2.2)
      else st
  | .medA v => (st.1 ++ [.medA v], st.2.1, st.2.2.1, st.2.2.2)
  | .otherA t => (st.1 ++ [.otherA t], st.2.1, st.2.2.1, st.2.2.2)

/-- The attribute loop run over the whole input list from the empty state. -/
def prepLoopRes (localAs sessPeerAs : Nat) (localIp : String)
    (attrs : List PathAttribute) : List PathAttribute × Bool × Bool × Bool :=
  attrs.foldl (prepStep localAs sessPeerAs localIp) ([], false, false, false)

/-- Insertion of a missing ORIGIN (agent.py:858-859): ORIGIN IGP at
position 0 when the loop saw none. -/
def prepInsertOrigin (m0 : List PathAttribute) (hO : Bool) : List PathAttribute :=
  if hO = false then pyInsert 0 (.originA 0) m0 else m0

/-- Insertion of a missing AS_PATH (agent.py:861-867): an empty AS_PATH,
prepended with the local AS for an eBGP session, after ORIGIN when
present. -/
def prepInsertAsPath (localAs sessPeerAs : Nat) (m1 : List PathAttribute)
    (hO hA : Bool) : List PathAttribute :=
  if hA = false then
    pyInsert (if hO then 1 else 0)
      (.asPathA (if sessPeerAs ≠ localAs then prependAS localAs [] else [])) m1
  else m1

/-- Insertion of a missing NEXT_HOP (agent.py:869-876): the local interface
IP, after ORIGIN and AS_PATH when present. -/
def prepInsertNextHop (localIp : String) (m2 : List PathAttribute)
    (hO hA hN : Bool) : List PathAttribute :=
  if hN = false then
    pyInsert ((if hO then 1 else 0) + (if hA then 1 else 0)) (.nextHopA localIp) m2
  else m2

/-- The insertion of missing well-known mandatory attributes
(agent.py:856-876) in order ORIGIN, AS_PATH, NEXT_HOP. -/
def prepInsertMandatory (localAs sessPeerAs : Nat) (localIp : String)
    (m0 : List PathAttribute) (hO hA hN : Bool) : List PathAttribute :=
  prepInsertNextHop localIp
    (prepInsertAsPath localAs sessPeerAs (prepInsertOrigin m0 hO) hO hA) hO hA hN

/-- `BGPAgent._prepare_attributes_for_advertisement` (agent.py:796-884):
the attribute loop, then insertion of missing mandatory attributes, then
for an iBGP session a default LOCAL_PREF 100 appended when none is
present. -/
def prepareAttributesForAdvertisement (localAs sessPeerAs : Nat) (localIp : String)
    (attrs : List PathAttribute) : List PathAttribute :=
  let res := prepLoopRes localAs sessPeerAs localIp attrs
  let m3 := prepInsertMandatory localAs sessPeerAs localIp res.1 res.2.1 res.2.2.1 res.2.2.2
  if sessPeerAs = localAs ∧ m3.any isLocalPrefAttr = false then m3 ++ [.localPrefA 100]
  else m3


lemma filterMap_pyInsert_none {α β : Type} (f : α → Option β) (a : α) (h : f a = none)
    (n : Nat) (l : List α) :
    (pyInsert n a l).filterMap f = l.filterMap f := by
  have h1 : (pyInsert n a l).filterMap f =
      (l.take n).filterMap f ++ (l.drop n).filterMap f := by
    rw [pyInsert, List.filterMap_append, List.filterMap_cons, h]
  rw [h1, ← List.filterMap_append, List.take_append_drop]

lemma filterMap_pyInsert_some {α β : Type} (f : α → Option β) (a : α) (b : β)
    (h : f a = some b) (n : Nat) (l : List α) :
    (pyInsert n a l).filterMap f =
      (l.take n).filterMap f ++ b :: (l.drop n).filterMap f := by
  rw [pyInsert, List.filterMap_append, List.filterMap_cons, h]

lemma filterMap_take_drop_nil {α β : Type} (f : α → Option β) (l : List α) (n : Nat)
    (h : l.filterMap f = []) :
    (l.take n).filterMap f = [] ∧ (l.drop n).filterMap f = [] := by
  have h2 : (l.take n).filterMap f ++ (l.drop n).filterMap f = [] := by
    rw [← List.filterMap_append, List.take_append_drop, h]
  exact List.append_eq_nil.mp h2

lemma asPathSegsOf_pyInsert_none (a : PathAttribute) (h : asPathSeg? a = none)
    (n : Nat) (l : List PathAttribute) :
    asPathSegsOf (pyInsert n a l) = asPathSegsOf l :=
  filterMap_pyInsert_none asPathSeg? a h n l

lemma localPrefsOf_pyInsert_none (a : PathAttribute) (h : localPrefVal? a = none)
    (n : Nat) (l : List PathAttribute) :
    localPrefsOf (pyInsert n a l) = localPrefsOf l :=
  filterMap_pyInsert_none localPrefVal? a h n l

lemma asPathSegsOf_eq_nil_iff (l : List PathAttribute) :
    asPathSegsOf l = [] ↔ l.any isAsPathAttr = false := by
  induction l with
  | nil => simp [asPathSegsOf]
  | cons a t ih =>
      unfold asPathSegsOf at ih ⊢
      rw [List.filterMap_cons, List.any_cons]
      cases a <;>
        simp only [asPathSeg?, isAsPathAttr, Bool.false_or, Bool.true_or, ih,
          List.cons_ne_nil, iff_false, Bool.true_eq_false, not_false_eq_true]

lemma localPrefsOf_eq_nil_iff (l : List PathAttribute) :
    localPrefsOf l = [] ↔ l.any isLocalPrefAttr = false := by
  induction l with
  | nil => simp [localPrefsOf]
  | cons a t ih =>
      unfold localPrefsOf at ih ⊢
      rw [List.filterMap_cons, List.any_cons]
      cases a <;>
        simp only [localPrefVal?, isLocalPrefAttr, Bool.false_or, Bool.true_or, ih,
          List.cons_ne_nil, iff_false, Bool.true_eq_false, not_false_eq_true]

lemma firstASOf_prependAS (asn : Nat) (segs : List (Nat × List Nat)) :
    firstASOf (prependAS asn segs) = some asn := by
  cases segs with
  | nil => rfl
  | cons s rest =>
      cases s with
      | mk t l =>
          by_cases h : t = 2 <;> simp [prependAS, h, firstASOf]

lemma prepLoop_asPaths (localAs sessPeerAs : Nat) (localIp : String) :
    ∀ (attrs : List PathAttribute) (st : List PathAttribute × Bool × Bool × Bool),
      asPathSegsOf (attrs.foldl (prepStep localAs sessPeerAs localIp) st).1 =
        asPathSegsOf st.1 ++
          (asPathSegsOf attrs).map
            (fun segs => if sessPeerAs ≠ localAs then prependAS localAs segs else segs) := by
  intro attrs
  induction attrs with
  | nil => intro st; simp [asPathSegsOf]
  | cons a t ih =>
      intro st
      rw [List.foldl_cons, ih]
      cases a with
      | localPrefA v =>
          by_cases hsp : sessPeerAs = localAs <;>
            simp [prepStep, hsp, asPathSegsOf, asPathSeg?, List.filterMap_append,
              List.filterMap_cons]
      | _ =>
          simp [prepStep, asPathSegsOf, asPathSeg?, List.filterMap_append,
            List.filterMap_cons]

lemma prepLoop_localPrefs (localAs sessPeerAs : Nat) (localIp : String) :
    ∀ (attrs : List PathAttribute) (st : List PathAttribute × Bool × Bool × Bool),
      localPrefsOf (attrs.foldl (prepStep localAs sessPeerAs localIp) st).1 =
        localPrefsOf st.1 ++ (if sessPeerAs = localAs then localPrefsOf attrs else []) := by
  intro attrs
  induction attrs with
  | nil => intro st; simp [localPrefsOf]
  | cons a t ih =>
      intro st
      rw [List.foldl_cons, ih]
      by_cases hsp : sessPeerAs = localAs <;>
        cases a <;>
        simp [prepStep, hsp, localPrefsOf, localPrefVal?, List.filterMap_append,
          List.filterMap_cons]

lemma prepLoop_hasAsPath (localAs sessPeerAs : Nat) (localIp : String) :
    ∀ (attrs : List PathAttribute) (st : List PathAttribute × Bool × Bool × Bool),
      (attrs.foldl (prepStep localAs sessPeerAs localIp) st).2.2.1 =
        (st.2.2.1 || attrs.any isAsPathAttr) := by
  intro attrs
  induction attrs with
  | nil => intro st; simp
  | cons a t ih =>
      intro st
      rw [List.foldl_cons, ih]
      cases a with
      | localPrefA v =>
          by_cases hsp : sessPeerAs = localAs <;> simp [prepStep, hsp, isAsPathAttr]
      | asPathA segs => simp [prepStep, isAsPathAttr]
      | _ => simp [prepStep, isAsPathAttr]

lemma prepInsertOrigin_asPaths (m0 : List PathAttribute) (hO : Bool) :
    asPathSegsOf (prepInsertOrigin m0 hO) = asPathSegsOf m0 := by
  cases hO
  · rw [prepInsertOrigin, if_pos rfl, asPathSegsOf_pyInsert_none (.originA 0) rfl]
  · rw [prepInsertOrigin, if_neg (by simp)]

lemma prepInsertOrigin_localPrefs (m0 : List PathAttribute) (hO : Bool) :
    localPrefsOf (prepInsertOrigin m0 hO) = localPrefsOf m0 := by
  cases hO
  · rw [prepInsertOrigin, if_pos rfl, localPrefsOf_pyInsert_none (.originA 0) rfl]
  · rw [prepInsertOrigin, if_neg (by simp)]

lemma prepInsertAsPath_asPaths_hasAs (localAs sessPeerAs : Nat)
    (m1 : List PathAttribute) (hO : Bool) :
    asPathSegsOf (prepInsertAsPath localAs sessPeerAs m1 hO true) = asPathSegsOf m1 := by
  rw [prepInsertAsPath, if_neg (by simp)]

lemma prepInsertAsPath_asPaths_noAs (localAs sessPeerAs : Nat)
    (m1 : List PathAttribute) (hO : Bool) (h1 : asPathSegsOf m1 = []) :
    asPathSegsOf (prepInsertAsPath localAs sessPeerAs m1 hO false) =
      [if sessPeerAs ≠ localAs then prependAS localAs [] else []] := by
  rw [prepInsertAsPath, if_pos rfl]
  unfold asPathSegsOf at h1 ⊢
  rw [filterMap_pyInsert_some asPathSeg?
      (.asPathA (if sessPeerAs ≠ localAs then prependAS localAs [] else []))
      (if sessPeerAs ≠ localAs then prependAS localAs [] else []) rfl,
    (filterMap_take_drop_nil asPathSeg? _ _ h1).1,
    (filterMap_take_drop_nil asPathSeg? _ _ h1).2]
  rfl

lemma prepInsertAsPath_localPrefs (localAs sessPeerAs : Nat)
    (m1 : List PathAttribute) (hO hA : Bool) :
    localPrefsOf (prepInsertAsPath localAs sessPeerAs m1 hO hA) = localPrefsOf m1 := by
  cases hA
  · rw [prepInsertAsPath, if_pos rfl,
      localPrefsOf_pyInsert_none
        (.asPathA (if sessPeerAs ≠ localAs then prependAS localAs [] else [])) rfl]
  · rw [prepInsertAsPath, if_neg (by simp)]

lemma prepInsertNextHop_asPaths (localIp : String) (m2 : List PathAttribute)
    (hO hA hN : Bool) :
    asPathSegsOf (prepInsertNextHop localIp m2 hO hA hN) = asPathSegsOf m2 := by
  cases hN
  · rw [prepInsertNextHop, if_pos rfl, asPathSegsOf_pyInsert_none (.nextHopA localIp) rfl]
  · rw [prepInsertNextHop, if_neg (by simp)]

lemma prepInsertNextHop_localPrefs (localIp : String) (m2 : List PathAttribute)
    (hO hA hN : Bool) :
    localPrefsOf (prepInsertNextHop localIp m2 hO hA hN) = localPrefsOf m2 := by
  cases hN
  · rw [prepInsertNextHop, if_pos rfl, localPrefsOf_pyInsert_none (.nextHopA localIp) rfl]
  · rw [prepInsertNextHop, if_neg (by simp)]

lemma prepInsertMandatory_localPrefs (localAs sessPeerAs : Nat) (localIp : String)
    (m0 : List PathAttribute) (hO hA hN : Bool) :
    localPrefsOf (prepInsertMandatory localAs sessPeerAs localIp m0 hO hA hN) =
      localPrefsOf m0 := by
  rw [prepInsertMandatory, prepInsertNextHop_localPrefs, prepInsertAsPath_localPrefs,
    prepInsertOrigin_localPrefs]

lemma prepInsertMandatory_asPaths_hasAs (localAs sessPeerAs : Nat) (localIp : String)
    (m0 : List PathAttribute) (hO hN : Bool) :
    asPathSegsOf (prepInsertMandatory localAs sessPeerAs localIp m0 hO true hN) =
      asPathSegsOf m0 := by
  rw [prepInsertMandatory, prepInsertNextHop_asPaths, prepInsertAsPath_asPaths_hasAs,
    prepInsertOrigin_asPaths]

lemma prepInsertMandatory_asPaths_noAs (localAs sessPeerAs : Nat) (localIp : String)
    (m0 : List PathAttribute) (hO hN : Bool) (h0 : asPathSegsOf m0 = []) :
    asPathSegsOf (prepInsertMandatory localAs sessPeerAs localIp m0 hO false hN) =
      [if sessPeerAs ≠ localAs then prependAS localAs [] else []] := by
  rw [prepInsertMandatory, prepInsertNextHop_asPaths,
    prepInsertAsPath_asPaths_noAs _ _ _ _ ((prepInsertOrigin_asPaths m0 hO).trans h0)]

lemma asPathSegsOf_ite_append_lp (cond : Prop) [Decidable cond] (m : List PathAttribute) :
    asPathSegsOf (if cond then m ++ [PathAttribute.localPrefA 100] else m) =
      asPathSegsOf m := by
  by_cases hc : cond
  · rw [if_pos hc]
    unfold asPathSegsOf
    rw [List.filterMap_append]
    simp [asPathSeg?]
  · rw [if_neg hc]

lemma localPrefsOf_ite_append_lp (cond : Prop) [Decidable cond] (m : List PathAttribute) :
    localPrefsOf (if cond then m ++ [PathAttribute.localPrefA 100] else m) =
      localPrefsOf m ++ (if cond then [100] else []) := by
  by_cases hc : cond
  · rw [if_pos hc, if_pos hc]
    unfold localPrefsOf
    rw [List.filterMap_append]
    simp [localPrefVal?]
  · rw [if_neg hc, if_neg hc, List.append_nil]

lemma prepare_out_asPaths (localAs sessPeerAs : Nat) (localIp : String)
    (attrs : List PathAttribute) :
    asPathSegsOf (prepareAttributesForAdvertisement localAs sessPeerAs localIp attrs) =
      (if asPathSegsOf attrs = [] then [[]] else asPathSegsOf attrs).map
        (fun segs => if sessPeerAs ≠ localAs then prependAS localAs segs else segs) := by
  have hA1 : asPathSegsOf (prepLoopRes localAs sessPeerAs localIp attrs).1 =
      (asPathSegsOf attrs).map
        (fun segs => if sessPeerAs ≠ localAs then prependAS localAs segs else segs) := by
    simpa [prepLoopRes, asPathSegsOf] using
      prepLoop_asPaths localAs sessPeerAs localIp attrs ([], false, false, false)
  have hF1 : (prepLoopRes localAs sessPeerAs localIp attrs).2.2.1 =
      attrs.any isAsPathAttr := by
    simpa [prepLoopRes] using
      prepLoop_hasAsPath localAs sessPeerAs localIp attrs ([], false, false, false)
  simp only [prepareAttributesForAdvertisement]
  rw [asPathSegsOf_ite_append_lp, hF1]
  cases hany : attrs.any isAsPathAttr
  · have hnil : asPathSegsOf attrs = [] := (asPathSegsOf_eq_nil_iff attrs).mpr hany
    rw [prepInsertMandatory_asPaths_noAs localAs sessPeerAs localIp
        (prepLoopRes localAs sessPeerAs localIp attrs).1
        (prepLoopRes localAs sessPeerAs localIp attrs).2.1
        (prepLoopRes localAs sessPeerAs localIp attrs).2.2.2
        (by rw [hA1, hnil]; rfl)]
    rw [hnil, if_pos rfl]
    rfl
  · have hnnil : asPathSegsOf attrs ≠ [] := by
      intro hc
      have h2 := (asPathSegsOf_eq_nil_iff attrs).mp hc
      rw [h2] at hany
      exact absurd hany (by decide)
    rw [prepInsertMandatory_asPaths_hasAs, hA1, if_neg hnnil]

lemma prepare_out_localPrefs (localAs sessPeerAs : Nat) (localIp : String)
    (attrs : List PathAttribute) :
    localPrefsOf (prepareAttributesForAdvertisement localAs sessPeerAs localIp attrs) =
      (if sessPeerAs = localAs then
        (if localPrefsOf attrs = [] then [100] else localPrefsOf attrs)
      else []) := by
  have hL1 : localPrefsOf (prepLoopRes localAs sessPeerAs localIp attrs).1 =
      (if sessPeerAs = localAs then localPrefsOf attrs else []) := by
    simpa [prepLoopRes, localPrefsOf] using
      prepLoop_localPrefs localAs sessPeerAs localIp attrs ([], false, false, false)
  simp only [prepareAttributesForAdvertisement]
  generalize hg : prepInsertMandatory localAs sessPeerAs localIp
      (prepLoopRes localAs sessPeerAs localIp attrs).1
      (prepLoopRes localAs sessPeerAs localIp attrs).2.1
      (prepLoopRes localAs sessPeerAs localIp attrs).2.2.1
      (prepLoopRes localAs sessPeerAs localIp attrs).2.2.2 = m3
  have hm3 : localPrefsOf m3 = (if sessPeerAs = localAs then localPrefsOf attrs else []) := by
    rw [← hg, prepInsertMandatory_localPrefs, hL1]
  rw [localPrefsOf_ite_append_lp, hm3]
  by_cases heq : sessPeerAs = localAs
  · by_cases hlp : localPrefsOf attrs = []
    · have hanyf : m3.any isLocalPrefAttr = false := by
        refine (localPrefsOf_eq_nil_iff m3).mp ?_
        rw [hm3, if_pos heq, hlp]
      rw [if_pos heq, hlp, if_pos (And.intro heq hanyf), if_pos heq, if_pos rfl]
      rfl
    · have hanyt : m3.any isLocalPrefAttr = true := by
        cases hx : m3.any isLocalPrefAttr
        · exfalso
          have h2 : localPrefsOf m3 = [] := (localPrefsOf_eq_nil_iff m3).mpr hx
          rw [hm3, if_pos heq] at h2
          exact hlp h2
        · rfl
      rw [if_pos heq, if_neg (by simp [hanyt]), if_pos heq, if_neg hlp, List.append_nil]
  · rw [if_neg heq, if_neg (fun hc => heq hc.1), if_neg heq, List.append_nil]

/-- C7: for an eBGP target session (peer AS differs from the local AS) the
prepared attribute list carries no LOCAL_PREF, and its AS_PATHs are
exactly the input AS_PATHs (an empty one when the input had none) with the
local AS prepended, so every AS_PATH in the output has the local AS as its
leftmost element; for an iBGP target session the input AS_PATHs are
preserved unchanged (an empty one is inserted when the input had none) and
the output carries exactly the input LOCAL_PREF values, or the default 100
when the input had none. -/
theorem prepareAttributes_ebgp_ibgp_spec (localAs sessPeerAs : Nat) (localIp : String)
    (attrs : List PathAttribute) :
    (sessPeerAs ≠ localAs →
       localPrefsOf (prepareAttributesForAdvertisement localAs sessPeerAs localIp attrs) =
         [] ∧
       asPathSegsOf (prepareAttributesForAdvertisement localAs sessPeerAs localIp attrs) =
         (if asPathSegsOf attrs = [] then [[]] else asPathSegsOf attrs).map
           (prependAS localAs) ∧
       (∀ segs ∈ asPathSegsOf (prepareAttributesForAdvertisement localAs sessPeerAs
            localIp attrs), firstASOf segs = some localAs)) ∧
    (sessPeerAs = localAs →
       asPathSegsOf (prepareAttributesForAdvertisement localAs sessPeerAs localIp attrs) =
         (if asPathSegsOf attrs = [] then [[]] else asPathSegsOf attrs) ∧
       localPrefsOf (prepareAttributesForAdvertisement localAs sessPeerAs localIp attrs) =
         (if localPrefsOf attrs = [] then [100] else localPrefsOf attrs)) := by
  constructor
  · intro hne
    have hasp := prepare_out_asPaths localAs sessPeerAs localIp attrs
    have hlp := prepare_out_localPrefs localAs sessPeerAs localIp attrs
    rw [if_neg hne] at hlp
    have hmap : (fun segs => if sessPeerAs ≠ localAs then prependAS localAs segs else segs) =
        (fun segs => prependAS localAs segs) := by
      funext segs
      rw [if_pos hne]
    rw [hmap] at hasp
    refine ⟨hlp, hasp, ?_⟩
    intro segs hmem
    rw [hasp] at hmem
    rcases List.mem_map.mp hmem with ⟨y, _, hy⟩
    rw [← hy]
    exact firstASOf_prependAS localAs y
  · intro heq
    have hasp := prepare_out_asPaths localAs sessPeerAs localIp attrs
    have hlp := prepare_out_localPrefs localAs sessPeerAs localIp attrs
    rw [if_pos heq] at hlp
    have hmap : (fun segs => if sessPeerAs ≠ localAs then prependAS localAs segs else segs) =
        (fun segs : List (Nat × List Nat) => segs) := by
      funext segs
      rw [if_neg (fun hc => hc heq)]
    rw [hmap, List.map_id'] at hasp
    exact ⟨hasp, hlp⟩

/-- Attribute list of a typical eBGP-learned route, for the C7 witness. -/
def c7Attrs : List PathAttribute :=
  [.originA 0, .asPathA [(2, [65000])], .nextHopA "172.16.0.1",
   .localPrefA 100, .medA 5]

/-- C7 witness: advertising to eBGP peer AS 65002 from local AS 65001
strips LOCAL_PREF and prepends 65001 to the AS_PATH. -/
theorem prepareAttributes_ebgp_ibgp_spec_witness :
    (65002 : Nat) ≠ 65001 ∧
    (localPrefsOf (prepareAttributesForAdvertisement 65001 65002 "172.16.0.2" c7Attrs) =
       [] ∧
     asPathSegsOf (prepareAttributesForAdvertisement 65001 65002 "172.16.0.2" c7Attrs) =
       (if asPathSegsOf c7Attrs = [] then [[]] else asPathSegsOf c7Attrs).map
         (prependAS 65001) ∧
     (∀ segs ∈ asPathSegsOf (prepareAttributesForAdvertisement 65001 65002 "172.16.0.2"
          c7Attrs), firstASOf segs = some 65001)) :=
  ⟨by decide,
   (prepareAttributes_ebgp_ibgp_spec 65001 65002 "172.16.0.2" c7Attrs).1 (by decide)⟩

/-- `BGPAgent._get_route_peer_as` (agent.py:773-794): the neighbor AS of a
route, with a body identical to `_get_neighbor_as`. -/
def getRoutePeerAs (r : BGPRoute) : Option Nat := getNeighborAs r

/-- `BGPAgent._should_advertise_to_peer` (agent.py:729-771): local routes
are always advertised; a route is never advertised back to the peer it was
learned from; with a route reflector configured its should-reflect hook
decides; otherwise iBGP-learned routes are not advertised to iBGP peers. -/
def shouldAdvertiseToPeer (localAs : Nat) (routerId : String)
    (reflector? : Option (BGPRoute → String → String → Bool → Bool))
    (route : BGPRoute) (sess : Session) : Bool :=
  if route.source = "local" then true
  else if route.peerId = sess.peerId then false
  else
    match reflector? with
    | some shouldReflect =>
        shouldReflect route route.peerId sess.peerId (route.peerIp != routerId)
    | none =>
        if getRoutePeerAs route = some localAs ∧ sess.config.peerAs = localAs then false
        else true

/-- C8: a non-local route whose learned-from peer id equals the target
session peer id is never advertised back to it, in every configuration
(the split-horizon check fires before the route-reflection hook is
consulted), and a locally originated route (source = local) is always
advertised. -/
theorem shouldAdvertise_split_horizon (localAs : Nat) (routerId : String)
    (reflector? : Option (BGPRoute → String → String → Bool → Bool))
    (route : BGPRoute) (sess : Session) :
    (route.source = "local" →
       shouldAdvertiseToPeer localAs routerId reflector? route sess = true) ∧
    (route.source ≠ "local" → route.peerId = sess.peerId →
       shouldAdvertiseToPeer localAs routerId reflector? route sess = false) := by
  constructor
  · intro h
    rw [shouldAdvertiseToPeer.eq_def, if_pos h]
  · intro h hpid
    rw [shouldAdvertiseToPeer.eq_def, if_neg h, if_pos hpid]

/-- A route-reflection hook that reflects everything, to exercise the C8
witness with route reflection enabled. -/
def c8Reflect : BGPRoute → String → String → Bool → Bool := fun _ _ _ _ => true

/-- Route learned from peer 7.7.7.7. -/
def c8Route : BGPRoute :=
  { pfx := "10.5.0.0/16", pfxLen := 16, localPref? := none,
    asPath? := some [(2, [65000])], origin? := some 0, med? := none,
    nextHop? := some "172.16.0.1", peerId := "7.7.7.7", peerIp := "172.16.0.1",
    source := "peer", timestamp := 4 }

/-- Session whose peer id matches the route above. -/
def c8Session : Session :=
  { config := { peerIp := "172.16.0.1", peerAs := 65000, localIp := "172.16.0.2",
                passive := false, acceptAnySource := false, peerRouterId := none },
    fsmState := .established, peerId := "7.7.7.7", adjRibIn := [] }

/-- C8 witness: even with route reflection enabled and a hook that would
reflect everything, the route is not advertised back to its source peer. -/
theorem shouldAdvertise_split_horizon_witness :
    c8Route.source ≠ "local" ∧ c8Route.peerId = c8Session.peerId ∧
    shouldAdvertiseToPeer 65001 "4.4.4.4" (some c8Reflect) c8Route c8Session = false :=
  ⟨by decide, by decide,
   (shouldAdvertise_split_horizon 65001 "4.4.4.4" (some c8Reflect) c8Route c8Session).2
     (by decide) (by decide)⟩

/-- Modelled from the spec: dict assignment `m[k] = v` on an
insertion-ordered mapping represented as an association list: replace in
place, or append at the end for a new key. -/
def assocSet {κ ν : Type} [DecidableEq κ] (k : κ) (v : ν) : List (κ × ν) → List (κ × ν)
  | [] => [(k, v)]
  | (k0, v0) :: rest => if k0 = k then (k, v) :: rest else (k0, v0) :: assocSet k v rest

/-- Modelled from the spec: `del m[p]` on the prefix-keyed RIB mapping:
remove the (unique) entry for the prefix. -/
def ribRemove (p : String) : List (String × BGPRoute) → List (String × BGPRoute)
  | [] => []
  | (q, r0) :: rest => if q = p then rest else (q, r0) :: ribRemove p rest

/-- The shadow-RIB route info dict built by `BGPConnector.inject_route`
(bgp_connector.py:125-131). -/
structure RouteInfo where
  nextHop : String
  asPath : List Nat
  localPref : Nat
  med : Nat
  origin : String
deriving DecidableEq

/-- The speaker state seen by the connector: the local AS, the agent
Loc-RIB (`speaker.agent.loc_rib`) and the shadow table `speaker.rib`
keyed by (prefix, prefix-length, afi, safi). -/
structure SpeakerState where
  localAs : Nat
  locRib : List (String × BGPRoute)
  shadowRib : List ((String × Int × Nat × Nat) × RouteInfo)
deriving DecidableEq

/-- The dict returned by inject_route / withdraw_route: success with the
network (and the created route info for inject), or an error string; a
raised exception (non-numeric prefix length) is modelled as an error with
no state change, which is what the caller observes. -/
inductive InjectResult where
  | ok (network : String) (info : Option RouteInfo) : InjectResult
  | err (msg : String) : InjectResult
deriving DecidableEq

/-- Models the `ipaddress.ip_address` version probe of inject_route
(bgp_connector.py:115-119): 4 for a dotted-quad IPv4 literal, 6 for a
colon-bearing IPv6 literal (not parsed further here), none for anything
else (ValueError). -/
def ipVersion (s : String) : Option Nat :=
  match parseIPv4 s with
  | some _ => some 4
  | none => if s.contains ':' then some 6 else none

/-- `BGPConnector.inject_route` (bgp_connector.py:93-143): parse the
network, build the route info with the connector defaults (Python-falsy
next-hop and AS-path arguments fall back to defaults), and write it into
the shadow table `speaker.rib`; the agent Loc-RIB is never touched. -/
def injectRoute (network : String) (nextHop? : Option String)
    (asPath? : Option (List Nat)) (localPref? med? : Option Nat)
    (origin? : Option String) (st : SpeakerState) : InjectResult × SpeakerState :=
  match network.splitOn "/" with
  | [p, lenStr] =>
      match lenStr.toInt? with
      | none => (.err "invalid prefix length", st)
      | some plen =>
          match ipVersion p with
          | none => (.err "Invalid IP address", st)
          | some v =>
              let afi : Nat := if v = 4 then 1 else 2
              let info : RouteInfo :=
                { nextHop :=
                    match nextHop? with
                    | some s => if s.isEmpty then "0.0.0.0" else s
                    | none => "0.0.0.0",
                  asPath :=
                    match asPath? with
                    | some l => if l.isEmpty then [st.localAs] else l
                    | none => [st.localAs],
                  localPref := localPref?.getD 100,
                  med := med?.getD 0,
                  origin := origin?.getD "igp" }
              (.ok network (some info),
               { st with shadowRib := assocSet (p, plen, afi, 1) info st.shadowRib })
  | _ => (.err "Invalid network format", st)

/-- Removal of the first shadow-RIB entry whose key matches the prefix and
length (bgp_connector.py:160-164); none when no entry matches. -/
def shadowRemoveFirst (p : String) (plen : Int) :
    List ((String × Int × Nat × Nat) × RouteInfo) →
      Option (List ((String × Int × Nat × Nat) × RouteInfo))
  | [] => none
  | kv :: rest =>
      if kv.1.1 = p ∧ kv.1.2.1 = plen then some rest
      else
        match shadowRemoveFirst p plen rest with
        | some rest2 => some (kv :: rest2)
        | none => none

/-- `BGPConnector.withdraw_route` (bgp_connector.py:145-166): parse the
network and delete the matching shadow-table entry; the agent Loc-RIB is
never touched. -/
def withdrawRoute (network : String) (st : SpeakerState) :
    InjectResult × SpeakerState :=
  match network.splitOn "/" with
  | [p, lenStr] =>
      match lenStr.toInt? with
      | none => (.err "invalid prefix length", st)
      | some plen =>
          match shadowRemoveFirst p plen st.shadowRib with
          | some rib2 => (.ok network none, { st with shadowRib := rib2 })
          | none => (.err "Route not found", st)
  | _ => (.err "Invalid network format", st)

/-- Modelled from the spec: `ASPathAttribute.as_sequence` of the missing
attributes.py: the AS numbers of the AS_SEQUENCE segments, in order. -/
def asSequenceOf (segs : List (Nat × List Nat)) : List Nat :=
  segs.foldl (fun acc s => if s.1 = 2 then acc ++ s.2 else acc) []

/-- One entry of the list returned by `BGPConnector.get_rib`
(bgp_connector.py:81-89). -/
structure RibEntry where
  network : String
  nextHop : String
  asPath : List Nat
  localPref : Nat
  med : Nat
  origin : String
  communities : List Nat
deriving DecidableEq

/-- `BGPConnector.get_rib` (bgp_connector.py:42-91) without the optional
filter argument: one entry per Loc-RIB route, fields read from the route
path attributes with the connector defaults; it reads only the agent
Loc-RIB. -/
def getRib (st : SpeakerState) : List RibEntry :=
  (st.locRib.map Prod.snd).map (fun r =>
    { network := r.pfx,
      nextHop := (r.nextHop?).getD "",
      asPath := (r.asPath?).elim [] asSequenceOf,
      localPref := (r.localPref?).getD 100,
      med := (r.med?).getD 0,
      origin := (r.origin?).elim "igp" toString,
      communities := [] })

lemma getRib_locRib_congr (st st2 : SpeakerState) (h : st2.locRib = st.locRib) :
    getRib st2 = getRib st := by
  unfold getRib
  rw [h]

/-- C9: inject_route and withdraw_route mutate only the shadow table
`speaker.rib`: for every argument list and every speaker state the agent
Loc-RIB after the call is exactly the Loc-RIB before it, and get_rib,
which reads only the Loc-RIB, returns the same entries as before; the two
tables are disjoint state.  (This holds unconditionally, so in particular
after every successful inject_route.) -/
theorem connector_shadow_rib_frame (network : String) (nextHop? : Option String)
    (asPath? : Option (List Nat)) (localPref? med? : Option Nat)
    (origin? : Option String) (st : SpeakerState) :
    (injectRoute network nextHop? asPath? localPref? med? origin? st).2.locRib =
      st.locRib ∧
    (withdrawRoute network st).2.locRib = st.locRib ∧
    getRib (injectRoute network nextHop? asPath? localPref? med? origin? st).2 =
      getRib st := by
  have hinj :
      (injectRoute network nextHop? asPath? localPref? med? origin? st).2.locRib =
        st.locRib := by
    unfold injectRoute
    repeat' split
    all_goals rfl
  have hwd : (withdrawRoute network st).2.locRib = st.locRib := by
    unfold withdrawRoute
    repeat' split
    all_goals rfl
  exact ⟨hinj, hwd, getRib_locRib_congr st _ hinj⟩

/-- `session.is_established()` as read by the agent. -/
def Session.isEstablished (s : Session) : Bool := s.fsmState == FSMState.established

/-- Modelled from the spec: application of one UPDATE to a per-peer
Adj-RIB-In mapping: withdrawn prefixes are removed, then each advertised
route replaces the entry for its prefix ("Route records in Adj-RIB-In
appear on receipt of UPDATE NLRI and are removed on withdrawal"). -/
def applyUpdate (withdrawn : List String) (advertised : List BGPRoute)
    (rib : List (String × BGPRoute)) : List (String × BGPRoute) :=
  advertised.foldl (fun m r => assocSet r.pfx r m)
    (withdrawn.foldl (fun m q => ribRemove q m) rib)

/-- Candidate collection of `_run_decision_process` for one prefix
(agent.py:598-613): the Adj-RIB-In entry of each established session,
passed through the import policy (the policy engine with no configured
policies is the identity). -/
def candidatesFor (importPolicy : BGPRoute → String → Option BGPRoute)
    (sessions : List Session) (p : String) : List BGPRoute :=
  sessions.foldl (fun acc s =>
    if s.isEstablished then
      match s.adjRibIn.lookup p with
      | some r =>
          match importPolicy r s.peerId with
          | some fr => acc ++ [fr]
          | none => acc
      | none => acc
    else acc) []

/-- One prefix of the loop of `_run_decision_process` (agent.py:597-653):
no candidates remove a present Loc-RIB entry; otherwise the selected best
path is installed only when the prefix had no current entry or the current
entry was learned from a different peer id (`current_best.peer_id !=
best_route.peer_id`); a best path from the same peer id leaves the
existing entry in place. -/
def decideOnePfx (sel : BestPathSelector)
    (importPolicy : BGPRoute → String → Option BGPRoute)
    (sessions : List Session) (locRib : List (String × BGPRoute)) (p : String) :
    List (String × BGPRoute) :=
  match candidatesFor importPolicy sessions p with
  | [] =>
      match locRib.lookup p with
      | some _ => ribRemove p locRib
      | none => locRib
  | c :: cs =>
      match sel.selectBest (c :: cs) with
      | none => locRib
      | some best =>
          match locRib.lookup p with
          | none => assocSet best.pfx best locRib
          | some cur =>
              if cur.peerId ≠ best.peerId then assocSet best.pfx best locRib
              else locRib

/-- Structural duplicate removal keeping first occurrences, with an
accumulator of already seen keys. -/
def dedupAux (seen : List String) : List String → List String
  | [] => []
  | x :: rest =>
      if seen.contains x then dedupAux seen rest
      else x :: dedupAux (x :: seen) rest

/-- All prefixes present in any established session Adj-RIB-In
(agent.py:584-589).  The source collects them into a Python set; the
per-prefix bodies touch disjoint Loc-RIB keys, so a duplicate-free list in
first-seen order is an equivalent model of the set iteration. -/
def allPfxs (sessions : List Session) : List String :=
  dedupAux []
    (sessions.foldl (fun acc s =>
      if s.isEstablished then acc ++ s.adjRibIn.map Prod.fst else acc) [])

/-- `BGPAgent._run_decision_process` (agent.py:576-658) restricted to its
Loc-RIB effect: when no established session advertises any prefix the
Loc-RIB is returned unchanged (early return), otherwise the per-prefix
decision body runs for every collected prefix. -/
def runDecisionProcess (sel : BestPathSelector)
    (importPolicy : BGPRoute → String → Option BGPRoute)
    (sessions : List Session) (locRib : List (String × BGPRoute)) :
    List (String × BGPRoute) :=
  match allPfxs sessions with
  | [] => locRib
  | ps => ps.foldl (fun rib p => decideOnePfx sel importPolicy sessions rib p) locRib

/-- Selector of an agent with local AS 65001 and no IGP callback. -/
def c1Sel : BestPathSelector :=
  { localAs := 65001, routerId := "4.4.4.4", igpCostLookup := none }

/-- Modelled from the spec: the import hook of a policy engine with no
configured policies is a no-op (absent = no-op). -/
def c1ImportPolicy : BGPRoute → String → Option BGPRoute := fun r _ => some r

/-- First advertisement of 10.0.0.0/8 by peer 5.5.5.5: LOCAL_PREF 200. -/
def c1RouteA : BGPRoute :=
  { pfx := "10.0.0.0/8", pfxLen := 8, localPref? := some 200,
    asPath? := some [(2, [65002])], origin? := some 0, med? := none,
    nextHop? := some "5.5.5.5", peerId := "5.5.5.5", peerIp := "5.5.5.5",
    source := "peer", timestamp := 100 }

/-- Re-advertisement of the same prefix by the same peer with changed path
attributes: LOCAL_PREF dropped to 50. -/
def c1RouteB : BGPRoute :=
  { c1RouteA with
    localPref? := some 50, timestamp := 200 }

/-- The session of peer 5.5.5.5 after the first UPDATE. -/
def c1Session1 : Session :=
  { config := { peerIp := "5.5.5.5", peerAs := 65002, localIp := "10.0.0.2",
                passive := false, acceptAnySource := false, peerRouterId := none },
    fsmState := .established, peerId := "5.5.5.5",
    adjRibIn := applyUpdate [] [c1RouteA] [] }

/-- The same session after the second UPDATE replaced the route. -/
def c1Session2 : Session :=
  { c1Session1 with
    adjRibIn := applyUpdate [] [c1RouteB] c1Session1.adjRibIn }

/-- Loc-RIB after the first decision cycle. -/
def c1Rib1 : List (String × BGPRoute) :=
  runDecisionProcess c1Sel c1ImportPolicy [c1Session1] []

/-- C1 failing input: after peer 5.5.5.5 re-advertises 10.0.0.0/8 with a
changed LOCAL_PREF and a second decision cycle runs, the Loc-RIB still
holds the first route while the selector output over the current
Adj-RIB-In candidates is the new route: the cycle skips installation
because the best route carries the same peer id as the current entry, so
the Loc-RIB entry is not equal to the best-path output. -/
theorem decisionProcess_stale_attribute_bug :
    (runDecisionProcess c1Sel c1ImportPolicy [c1Session2] c1Rib1).lookup "10.0.0.0/8" =
      some c1RouteA ∧
    c1Sel.selectBest (candidatesFor c1ImportPolicy [c1Session2] "10.0.0.0/8") =
      some c1RouteB ∧
    c1RouteA ≠ c1RouteB := by
  refine ⟨by decide, by decide, by decide⟩
